import Mathlib

/-!
Verification of the credit-backed transaction engine of the
smart-fuel-financing repository.

The embedding models the engine's persisted rows as Lean structures and the
service methods as pure functions.  Monetary columns (`Numeric(18, 2)`) are
modelled as rationals, timestamps as natural numbers, ids as natural numbers.
A raised Python exception is modelled as `Except.error msg`: the services
raise before `db.commit()`, so a raised call leaves the store unchanged,
which the `Except`-style embedding captures by returning no new state on the
error path.

The ORM declarations in `app/models/entities.py` are the authority for which
attributes exist.  They declare no `Agency` class, no `Driver.agency_id`, no
`Transaction.debtor_agency_id` and no `CreditLine.agency_id`, yet the service
code reads those names.  Consequently:
  * `scan_and_authorize` raises `AttributeError` at
    `transaction_qr_service.py` line 214 (`driver.agency_id`) on every path
    that passes validation, before the transaction insert, the
    `utilized_amount` increment (line 222), the QR marking (lines 225-228)
    and the commit;
  * `initiate_transaction` raises `ImportError` at
    `routers/loans_transactions.py` lines 63-64 (its function-level imports
    pull in `credit_engine_service`, whose `Agency` import from
    `app.models.entities` fails; `app.models` also exports no `CreditLine`)
    before any lookup or mutation;
  * `create_loan_from_transaction` raises `AttributeError` at
    `loan_service.py` line 63 (`transaction.debtor_agency_id`) in its
    new-loan branch, before the `Loan` is built;
  * `get_available_credit` raises `AttributeError` at
    `credit_engine_service.py` line 137 (`driver.agency_id`) whenever a
    driver row is found, and at line 144 (`CreditLine.agency_id`) on the
    agency branch.
The embedding models these raises as error results with
`AttributeError:` / `ImportError:` prefixed messages, placed exactly where
the source raises them.  `settle_transaction` and `record_repayment` read
only declared attributes and are embedded on their full behavior.
-/

namespace SmartFuel

/-- Credit line row (`app/models/entities.py`, `class CreditLine`):
`credit_limit` and `utilized_amount` are `Numeric(18,2)` columns, `version`
is the optimistic-locking counter (`Integer`, default 0); `bank_id` and
`driver_id` are non-nullable foreign keys. -/
structure CreditLine where
  id : ℕ
  bank_id : ℕ
  driver_id : ℕ
  credit_limit : ℚ
  utilized_amount : ℚ
  version : ℕ
deriving DecidableEq, Repr

/-- Transaction row (`app/models/entities.py`, `class Transaction`):
`status` is a string column defaulting to `"AUTHORIZED"`; `settled_amount`
and `settled_at` are nullable until capture. -/
structure Transaction where
  id : ℕ
  idempotency_key : String
  funding_source_id : ℕ
  debtor_driver_id : ℕ
  authorized_amount : ℚ
  settled_amount : Option ℚ
  status : String
  settled_at : Option ℕ
deriving DecidableEq, Repr

/-- QR / authorization-token row (`app/models/entities.py`, `class QrCode`):
single-use credential with `expires_at`, `is_used`, `used_at`, bound to a
transaction through the nullable `transaction_id` column. -/
structure QrCode where
  driver_id : ℕ
  station_id : ℕ
  bank_id : ℕ
  authorized_amount : ℚ
  expires_at : ℕ
  is_used : Bool
  used_at : Option ℕ
  transaction_id : Option ℕ
deriving DecidableEq, Repr

/-- Loan row (`app/models/entities.py`, `class Loan`). -/
structure Loan where
  id : ℕ
  credit_line_id : ℕ
  driver_id : ℕ
  principal_amount : ℚ
  outstanding_balance : ℚ
  interest_rate : ℚ
  status : String
  due_date : Option ℕ
  paid_off_at : Option ℕ
deriving DecidableEq, Repr

/-- Loan repayment row (`app/models/entities.py`, `class LoanRepayment`). -/
structure LoanRepayment where
  loan_id : ℕ
  amount : ℚ
  payment_method : String
  payment_reference : Option String
  repaid_at : ℕ
deriving DecidableEq, Repr

/-- The inlined ledger release used by
`TransactionQrService.settle_transaction` (line 273) and
`LoanService.record_repayment` (line 106):
`utilized_amount = max(0.0, utilized_amount - amount)`.  Neither call site
touches `version`. -/
def release (cl : CreditLine) (amount : ℚ) : CreditLine :=
  { cl with utilized_amount := max 0 (cl.utilized_amount - amount) }

/-- The credit-line invariant stated by the specification:
`0 ≤ utilized_amount ≤ credit_limit`. -/
def clInvariant (cl : CreditLine) : Prop :=
  0 ≤ cl.utilized_amount ∧ cl.utilized_amount ≤ cl.credit_limit

instance (cl : CreditLine) : Decidable (clInvariant cl) := by
  unfold clInvariant
  infer_instance

/-- `TransactionQrService.scan_and_authorize` (`transaction_qr_service.py`
lines 138-232).  The relational lookups are abstracted to the rows they
resolve: `qr` is the row matched by `qr_id`, `existing` is the result of the
idempotency-key query (lines 170-177), `cl` the credit line of the
`(driver, bank)` pair; driver, station, bank and merchant are taken as
resolved.  The branch order follows the source: the QR validity filters
(`is_used == False`, `expires_at > now`, lines 149-168) come first, then the
idempotency check, which returns the existing transaction with no mutation,
then the credit-limit check (lines 199-201).  A request that passes all
checks then evaluates `driver.agency_id` at line 214 while building the
`Transaction` keyword arguments; `entities.Driver` declares no `agency_id`,
so the call raises `AttributeError` there — before the insert, before the
`utilized_amount` increment at line 222, before the QR marking at lines
225-228 and before the commit at line 230.  No scan ever creates a
transaction, places a hold or consumes the token. -/
def scan_and_authorize (qr : QrCode) (existing : Option Transaction)
    (cl : CreditLine) (now : ℕ) :
    Except String (Transaction × QrCode × CreditLine) :=
  if qr.is_used = true ∨ ¬ (now < qr.expires_at) then
    .error "Invalid or expired QR code"
  else
    match existing with
    | some tx => .ok (tx, qr, cl)
    | none =>
      if cl.utilized_amount + qr.authorized_amount > cl.credit_limit then
        .error "Insufficient credit limit"
      else
        .error "AttributeError: Driver.agency_id"

/-- `TransactionQrService.settle_transaction` (`transaction_qr_service.py`
lines 234-285): reject unless `status == "AUTHORIZED"` (error message
interpolates the current status), reject `settled_amount >
authorized_amount`, release the difference back to the credit line
(clamped at zero, `version` untouched), then mark the transaction settled.
This function reads only declared attributes, so it is embedded on its full
behavior. -/
def settle_transaction (tx : Transaction) (cl : CreditLine)
    (settled_amount : ℚ) (now : ℕ) :
    Except String (Transaction × CreditLine) :=
  if tx.status ≠ "AUTHORIZED" then
    .error ("Transaction already " ++ tx.status)
  else if settled_amount > tx.authorized_amount then
    .error "Settled amount cannot exceed authorized amount"
  else
    let difference := tx.authorized_amount - settled_amount
    let cl' := release cl difference
    .ok ({ tx with
             settled_amount := some settled_amount
             status := "SETTLED"
             settled_at := some now },
         cl')

/-- `settle_transaction` viewed on the whole authorize→settle episode:
the source function reads and writes only the transaction and the credit
line — it contains no reference to the `QrCode` table — so the bound QR row
is carried through unchanged. -/
def settle_episode (tx : Transaction) (qr : QrCode) (cl : CreditLine)
    (settled_amount : ℚ) (now : ℕ) :
    Except String (Transaction × QrCode × CreditLine) :=
  match settle_transaction tx cl settled_amount now with
  | .error e => .error e
  | .ok (tx', cl') => .ok (tx', qr, cl')

/-- The direct-initiation endpoint `initiate_transaction`
(`routers/loans_transactions.py` lines 52-126).  Its body begins with the
function-level imports at lines 63-64: importing `TransactionQrService`
loads `credit_engine_service`, whose
`from app.models.entities import ... Agency ...` fails (`entities.py`
declares no `Agency`), and `from app.models import Driver, FuelStation,
CreditLine` fails as well (`app.models` exports no `CreditLine`).  The
`ImportError` is raised before any lookup or mutation, so the endpoint never
creates a transaction and never touches the credit line — the unchecked
increment at lines 113-115 is unreachable. -/
def initiate_transaction (driver_id station_id : ℕ) (authorized_amount : ℚ)
    (cl : CreditLine) : Except String (Transaction × CreditLine) :=
  .error "ImportError: Agency"

/-- The paid-off check of `LoanService.record_repayment` (`loan_service.py`
lines 108-111): when the balance is `≤ 0`, set status `PAID_OFF` and stamp
`paid_off_at`. -/
def applyPaidOff (now : ℕ) (loan : Loan) : Loan :=
  if loan.outstanding_balance ≤ (0 : ℚ) then
    { loan with status := "PAID_OFF", paid_off_at := some now }
  else loan

/-- The opportunistic overdue check of `LoanService.record_repayment`
(`loan_service.py` lines 113-115): when a due date exists, has passed and
the balance is positive, set status `OVERDUE`. -/
def applyOverdue (now : ℕ) (loan : Loan) : Loan :=
  match loan.due_date with
  | some d =>
    if d < now ∧ (0 : ℚ) < loan.outstanding_balance then
      { loan with status := "OVERDUE" }
    else loan
  | none => loan

/-- `LoanService.record_repayment` (`loan_service.py` lines 75-119):
reject a missing loan, reject `outstanding_balance < amount`, append the
repayment row, subtract the amount from the balance, clamp-release the
credit line when one exists (`version` untouched), mark `PAID_OFF` when the
balance is `≤ 0`, then opportunistically mark `OVERDUE` when the due date
has passed with a positive balance.  This function reads only declared
attributes, so it is embedded on its full behavior. -/
def record_repayment (loanq : Option Loan) (clq : Option CreditLine)
    (amount : ℚ) (payment_method : String)
    (payment_reference : Option String) (now : ℕ) :
    Except String (LoanRepayment × Loan × Option CreditLine) :=
  match loanq with
  | none => .error "Loan not found"
  | some loan =>
    if loan.outstanding_balance < amount then
      .error "Repayment amount exceeds outstanding balance"
    else
      let repayment : LoanRepayment :=
        { loan_id := loan.id
          amount := amount
          payment_method := payment_method
          payment_reference := payment_reference
          repaid_at := now }
      let loan1 :=
        { loan with outstanding_balance := loan.outstanding_balance - amount }
      let clq' := clq.map (fun cl => release cl amount)
      .ok (repayment, applyOverdue now (applyPaidOff now loan1), clq')

/-- `LoanService.create_loan_from_transaction` (`loan_service.py` lines
27-73).  The guard `not transaction or not transaction.settled_amount`
(line 36) treats a missing row, a `None` amount and a zero amount alike;
`clq` is the `db.get(CreditLine, ...)` result (lines 39-41); `existing` is
the query for an `ACTIVE` loan on the credit line (lines 44-49).  The
existing-loan branch (lines 51-57) reads only declared attributes and
succeeds.  The new-loan branch evaluates
`agency_id=transaction.debtor_agency_id` at line 63 while building the
`Loan` keyword arguments; `entities.Transaction` declares no
`debtor_agency_id`, so it raises `AttributeError` there, before the `Loan`
(with its 30-day due date at line 68) is ever built.  The `now` parameter
feeds only that unreachable due-date computation. -/
def create_loan_from_transaction (txq : Option Transaction)
    (clq : Option CreditLine) (existing : Option Loan) (now : ℕ) :
    Except String Loan :=
  match txq with
  | none => .error "Transaction not found or not settled"
  | some tx =>
    match tx.settled_amount with
    | none => .error "Transaction not found or not settled"
    | some s =>
      if s = 0 then .error "Transaction not found or not settled"
      else
        match clq with
        | none => .error "Credit line not found"
        | some _ =>
          match existing with
          | some loan =>
            .ok { loan with
                    principal_amount := loan.principal_amount + s
                    outstanding_balance := loan.outstanding_balance + s }
          | none => .error "AttributeError: Transaction.debtor_agency_id"

/-- The engine's four mutating operations on a credit line, as named by the
claim: the QR-scan hold, the direct-initiation hold, the settlement release
and the repayment release. -/
inductive EngineOp where
  | scanHold (amount : ℚ)
  | initiateHold (amount : ℚ)
  | settleRelease (authorized settled : ℚ)
  | repayRelease (amount : ℚ)
deriving DecidableEq, Repr

/-- Committed effect of one engine operation on the credit line.
`scanHold`: every path of `scan_and_authorize` leaves the line unchanged —
the validation errors and the idempotency return precede the increment at
line 222, and the path that passes all checks raises `AttributeError` at
line 214, still before the increment and the commit.  `initiateHold`: the
endpoint raises `ImportError` at lines 63-64 before any mutation.
`settleRelease`: guarded by `settled ≤ authorized` (line 251), then the
clamped release of the difference (line 273) is committed.  `repayRelease`:
the clamped release of the repayment amount (line 106) is committed. -/
def applyOp (cl : CreditLine) : EngineOp → CreditLine
  | .scanHold _ => cl
  | .initiateHold _ => cl
  | .settleRelease authorized settled =>
    if settled > authorized then cl else release cl (authorized - settled)
  | .repayRelease a => release cl a

/-- Folding a sequence of engine operations over a credit line. -/
def runOps (cl : CreditLine) (ops : List EngineOp) : CreditLine :=
  ops.foldl applyOp cl

/-- Domain restriction on operation amounts: repayment amounts are
non-negative, matching the engine's numeric semantics (all currency amounts
are non-negative fixed-point values).  The other operations need no
restriction: the two hold paths never commit a mutation, and the settlement
release is guarded so its released difference is non-negative. -/
def opSafe : EngineOp → Prop
  | .scanHold _ => True
  | .initiateHold _ => True
  | .settleRelease _ _ => True
  | .repayRelease a => 0 ≤ a

instance (op : EngineOp) : Decidable (opSafe op) := by
  cases op <;> unfold opSafe <;> infer_instance

/-- Python truthiness of an optional integer argument (`if driver_id:`):
`None` and `0` are falsy. -/
def pyTruthy : Option ℕ → Bool
  | none => false
  | some n => n ≠ 0

/-- Driver row, restricted to the attributes the availability query can
read before it crashes (`entities.Driver` declares no `agency_id`). -/
structure Driver where
  id : ℕ
  preferred_bank_id : Option ℕ
deriving DecidableEq, Repr

/-- The store visible to `CreditEngineService.get_available_credit`. -/
structure Db where
  drivers : List Driver
deriving DecidableEq, Repr

/-- `self.db.get(Driver, driver_id)`. -/
def findDriver (db : Db) (driver_id : Option ℕ) : Option Driver :=
  db.drivers.find? (fun d => some d.id = driver_id)

/-- `CreditEngineService.get_available_credit` (`credit_engine_service.py`
lines 121-161).  With a truthy `driver_id`: a missing driver row returns
`0.0` at line 134; a found driver reaches `if driver.agency_id:` at line
137, and `entities.Driver` declares no `agency_id`, so the call raises
`AttributeError`.  With a falsy `driver_id` and a truthy `agency_id`: the
query construction at line 144 reads the class attribute
`CreditLine.agency_id`, undeclared on `entities.CreditLine`, and raises
`AttributeError`.  With both falsy, the final `if driver_id:` (line 151) is
false and line 161 returns `0.0`.  The per-driver branch at lines 151-159
is unreachable. -/
def get_available_credit (db : Db) (driver_id agency_id : Option ℕ) :
    Except String ℚ :=
  if pyTruthy driver_id then
    match findDriver db driver_id with
    | none => .ok 0
    | some _ => .error "AttributeError: Driver.agency_id"
  else if pyTruthy agency_id then
    .error "AttributeError: CreditLine.agency_id"
  else
    .ok 0

/-- `CreditEngineService.check_credit_availability`
(`credit_engine_service.py` lines 163-175): calls `get_available_credit`
(propagating its exception) and returns
`(available >= requested_amount, available)`. -/
def check_credit_availability (db : Db) (driver_id agency_id : Option ℕ)
    (requested_amount : ℚ) : Except String (Bool × ℚ) :=
  match get_available_credit db driver_id agency_id with
  | .error e => .error e
  | .ok available => .ok (available ≥ requested_amount, available)

/-- `(is_used, used_at)` of the token carried in a scan / episode result. -/
def resultTokenState :
    Except String (Transaction × QrCode × CreditLine) → Option (Bool × Option ℕ)
  | .ok (_, qr, _) => some (qr.is_used, qr.used_at)
  | .error _ => none

/-- Sample credit line: limit 100, nothing utilized. -/
def clDemo : CreditLine :=
  { id := 7, bank_id := 3, driver_id := 1,
    credit_limit := 100, utilized_amount := 0, version := 0 }

/-- Sample credit line: limit 100, 40 utilized. -/
def clHalf : CreditLine :=
  { id := 7, bank_id := 3, driver_id := 1,
    credit_limit := 100, utilized_amount := 40, version := 2 }

/-- Sample QR token: amount 30, expires at time 100, unused. -/
def qrDemo : QrCode :=
  { driver_id := 1, station_id := 2, bank_id := 3, authorized_amount := 30,
    expires_at := 100, is_used := false, used_at := none,
    transaction_id := none }

/-- Sample unused QR token bound to transaction 41. -/
def qrBound : QrCode :=
  { driver_id := 1, station_id := 2, bank_id := 3, authorized_amount := 30,
    expires_at := 100, is_used := false, used_at := none,
    transaction_id := some 41 }

/-- Sample settled transaction (authorized 50, captured 40). -/
def txSettled : Transaction :=
  { id := 9, idempotency_key := "key-9", funding_source_id := 3,
    debtor_driver_id := 1,
    authorized_amount := 50, settled_amount := some 40,
    status := "SETTLED", settled_at := some 8 }

/-- Sample authorized, not yet settled transaction (authorized 30). -/
def txAuth : Transaction :=
  { id := 41, idempotency_key := "key-41", funding_source_id := 3,
    debtor_driver_id := 1,
    authorized_amount := 30, settled_amount := none,
    status := "AUTHORIZED", settled_at := none }

/-- Sample paid-off loan (principal 100, balance 0). -/
def loanPaid : Loan :=
  { id := 51, credit_line_id := 7, driver_id := 1, principal_amount := 100,
    outstanding_balance := 0, interest_rate := 0, status := "PAID_OFF",
    due_date := some 50, paid_off_at := some 40 }

/-- Sample active loan (principal 100, balance 100, not yet due). -/
def loanActive : Loan :=
  { id := 52, credit_line_id := 7, driver_id := 1, principal_amount := 100,
    outstanding_balance := 100, interest_rate := 0, status := "ACTIVE",
    due_date := some 500, paid_off_at := none }

/-- Settling `txAuth` for 0 at time 9 and rolling the result into a loan:
the pair is the settled transaction's status and the roll-up outcome. -/
def zeroSettleRollup : Option (String × Except String Loan) :=
  match settle_transaction txAuth clHalf 0 9 with
  | .ok (tx', _) =>
    some (tx'.status, create_loan_from_transaction (some tx') (some clHalf) none 9)
  | .error _ => none

/-- Sample store for the availability query: one driver row with id 1. -/
def dbDemo : Db :=
  { drivers := [{ id := 1, preferred_bank_id := some 3 }] }

/-- C2 counterexample: the claim says a release increments the version
counter; in the source neither release site (`settle_transaction` line 273,
`record_repayment` line 106) touches `version`, so releasing 20 from a line
at version 2 leaves it at version 2. -/
theorem C2_release_version_counterexample :
    ¬ ((release clHalf 20).version = clHalf.version + 1) := by decide

/-- C2 (amended): a hold attempt fails with the insufficient-credit error
exactly when `utilized_amount + amount > credit_limit`, and a fitting hold
never completes — the authorization path raises `AttributeError` at line
214 before the increment at lines 222-223, so no hold ever increments
`utilized_amount` or `version`; `release` decrements `utilized_amount` by
`min(amount, utilized_amount)`, never going negative, and leaves the
version counter unchanged. -/
theorem C2_ledger_primitives_amended (qr : QrCode) (cl : CreditLine)
    (now : ℕ) (a : ℚ) :
    (qr.is_used = false → now < qr.expires_at →
      cl.credit_limit < cl.utilized_amount + qr.authorized_amount →
      scan_and_authorize qr none cl now = .error "Insufficient credit limit") ∧
    (qr.is_used = false → now < qr.expires_at →
      cl.utilized_amount + qr.authorized_amount ≤ cl.credit_limit →
      scan_and_authorize qr none cl now
        = .error "AttributeError: Driver.agency_id") ∧
    (release cl a).utilized_amount
      = cl.utilized_amount - min a cl.utilized_amount ∧
    (release cl a).version = cl.version := by
  refine ⟨fun hused hexp hover => ?_, fun hused hexp hfit => ?_, ?_, ?_⟩
  · simp [scan_and_authorize, hused, hexp, hover]
  · simp [scan_and_authorize, hused, hexp, not_lt.mpr hfit]
  · show max 0 (cl.utilized_amount - a) = _
    rcases le_total a cl.utilized_amount with h | h
    · rw [min_eq_left h, max_eq_right (by linarith)]
    · rw [min_eq_right h, max_eq_left (by linarith)]
      exact (sub_self _).symm
  · rfl

/-- C2 witness: a fitting hold attempt (40 + 30 ≤ 100) ends in the
line-214 error, and a release of 60 from 40 utilized clamps at 0. -/
theorem C2_ledger_primitives_witness :
    scan_and_authorize qrDemo none clHalf 5
      = .error "AttributeError: Driver.agency_id" ∧
    (release clHalf 60).utilized_amount
      = clHalf.utilized_amount - min 60 clHalf.utilized_amount :=
  ⟨(C2_ledger_primitives_amended qrDemo clHalf 5 60).2.1 rfl
     (by norm_num [qrDemo]) (by norm_num [clHalf, qrDemo]),
   (C2_ledger_primitives_amended qrDemo clHalf 5 60).2.2.1⟩

/-- C3: settling a transaction whose status is not `AUTHORIZED` (in
particular an already `SETTLED` one) fails with the already-settled error
for every amount; the guard raises before any mutation, so no state
changes. -/
theorem C3_settle_already_settled (tx : Transaction) (cl : CreditLine)
    (s : ℚ) (now : ℕ) (h : tx.status ≠ "AUTHORIZED") :
    settle_transaction tx cl s now =
      .error ("Transaction already " ++ tx.status) := by
  unfold settle_transaction
  rw [if_pos h]

/-- C3 witness: a second settle on a settled transaction fails. -/
theorem C3_settle_already_settled_witness :
    settle_transaction txSettled clHalf 10 9 =
      .error ("Transaction already " ++ txSettled.status) :=
  C3_settle_already_settled txSettled clHalf 10 9 (by decide)

theorem release_preserves_clInvariant (cl : CreditLine) (d : ℚ)
    (hd : 0 ≤ d) (h : clInvariant cl) : clInvariant (release cl d) := by
  obtain ⟨h0, h1⟩ := h
  refine ⟨le_max_left 0 _, ?_⟩
  show max 0 (cl.utilized_amount - d) ≤ cl.credit_limit
  exact max_le (by linarith) (by linarith)

theorem applyOp_preserves_clInvariant (cl : CreditLine) (op : EngineOp)
    (hop : opSafe op) (h : clInvariant cl) : clInvariant (applyOp cl op) := by
  cases op with
  | scanHold a => exact h
  | initiateHold a => exact h
  | settleRelease authorized settled =>
    show clInvariant (if settled > authorized then cl
                      else release cl (authorized - settled))
    by_cases hgt : settled > authorized
    · rw [if_pos hgt]
      exact h
    · rw [if_neg hgt]
      push_neg at hgt
      exact release_preserves_clInvariant cl _ (by linarith) h
  | repayRelease a =>
    exact release_preserves_clInvariant cl a hop h

/-- C1: the invariant `0 ≤ utilized_amount ≤ credit_limit` holds after
every sequence of the engine's four mutating operations (with repayment
amounts non-negative, per the engine's numeric semantics).  The QR-scan
hold and the direct-initiation hold never commit a mutation — both raise
before their increments (`AttributeError` at `transaction_qr_service.py`
line 214, `ImportError` at `loans_transactions.py` lines 63-64) — and the
two releases only ever decrease `utilized_amount`, clamped at 0. -/
theorem C1_invariant_preserved (ops : List EngineOp) (cl : CreditLine)
    (hops : ∀ op ∈ ops, opSafe op) (hcl : clInvariant cl) :
    clInvariant (runOps cl ops) := by
  induction ops generalizing cl with
  | nil => simpa [runOps] using hcl
  | cons op rest ih =>
    have h1 : clInvariant (applyOp cl op) :=
      applyOp_preserves_clInvariant cl op (hops op (by simp)) hcl
    have h2 := ih (applyOp cl op) (fun o ho => hops o (by simp [ho])) h1
    simpa [runOps] using h2

/-- C1 witness: a sequence containing all four operations — including a
direct initiation of 200 against a limit-100 line — keeps the invariant,
because neither hold ever commits. -/
theorem C1_invariant_witness :
    clInvariant clDemo ∧
    clInvariant (runOps clDemo
      [EngineOp.scanHold 30, EngineOp.initiateHold 200,
       EngineOp.settleRelease 30 20, EngineOp.repayRelease 5]) :=
  ⟨by norm_num [clInvariant, clDemo],
   C1_invariant_preserved
     [EngineOp.scanHold 30, EngineOp.initiateHold 200,
      EngineOp.settleRelease 30 20, EngineOp.repayRelease 5] clDemo
     (by intro op hop; fin_cases hop <;> norm_num [opSafe])
     (by norm_num [clInvariant, clDemo])⟩

/-- C4: evaluating the authorization path at the failing input — a valid,
unused, unexpired token for 30 against a line with 100 free — shows the
hold is never applied: the scan raises the line-214 error instead of
reducing available credit by the authorized amount. -/
theorem C4_authorization_crash :
    clDemo.utilized_amount + qrDemo.authorized_amount ≤ clDemo.credit_limit ∧
    scan_and_authorize qrDemo none clDemo 5
      = .error "AttributeError: Driver.agency_id" := by
  constructor
  · norm_num [clDemo, qrDemo]
  · norm_num [scan_and_authorize, qrDemo, clDemo]

/-- C5 (amended): no operation ever marks the token used.
`settle_transaction` contains no reference to the token, so every
successful settlement carries it through unchanged; every successful scan
outcome (the idempotency branch) returns the token unchanged as well; and
the path that would reach the marking lines 225-228 raises `AttributeError`
at line 214 first.  After every successful settlement the token's
`is_used` and `used_at` are exactly what they were before — never the
settlement time. -/
theorem C5_token_never_marked_amended (qr : QrCode) (cl : CreditLine)
    (now : ℕ) :
    (∀ tx0 qr0 cl0 s0 n0 r,
        settle_episode tx0 qr0 cl0 s0 n0 = .ok r → r.2.1 = qr0) ∧
    (∀ existing r,
        scan_and_authorize qr existing cl now = .ok r → r.2.1 = qr) ∧
    (qr.is_used = false → now < qr.expires_at →
      cl.utilized_amount + qr.authorized_amount ≤ cl.credit_limit →
      scan_and_authorize qr none cl now
        = .error "AttributeError: Driver.agency_id") := by
  refine ⟨?_, ?_, fun hused hexp hfit => ?_⟩
  · intro tx0 qr0 cl0 s0 n0 r h
    unfold settle_episode at h
    cases hs : settle_transaction tx0 cl0 s0 n0 with
    | error e => rw [hs] at h; cases h
    | ok p =>
      rw [hs] at h
      cases p with
      | mk tx' cl' =>
        injection h with h2
        subst h2
        rfl
  · intro existing r h
    unfold scan_and_authorize at h
    by_cases hv : qr.is_used = true ∨ ¬ (now < qr.expires_at)
    · rw [if_pos hv] at h
      cases h
    · rw [if_neg hv] at h
      cases existing with
      | some tx =>
        injection h with h2
        subst h2
        rfl
      | none =>
        by_cases hc : cl.utilized_amount + qr.authorized_amount > cl.credit_limit
        · rw [if_pos hc] at h
          cases h
        · rw [if_neg hc] at h
          cases h
  · simp [scan_and_authorize, hused, hexp, not_lt.mpr hfit]

/-- C5 witness: the path that would mark the token ends in the line-214
error on a concrete valid token with credit to spare. -/
theorem C5_token_never_marked_witness :
    scan_and_authorize qrDemo none clDemo 5
      = .error "AttributeError: Driver.agency_id" :=
  (C5_token_never_marked_amended qrDemo clDemo 5).2.2 rfl
    (by norm_num [qrDemo]) (by norm_num [clDemo, qrDemo])

/-- C5 counterexample: settling at time 9 a transaction whose bound token
is unused succeeds and leaves the token with `is_used = false` and
`used_at = none` — the claim's `is_used = true` with `used_at` equal to the
settlement time never happens. -/
theorem C5_token_never_marked_counterexample :
    qrBound.transaction_id = some txAuth.id ∧
    resultTokenState (settle_episode txAuth qrBound clHalf 20 9)
      = some (false, none) := by
  constructor
  · rfl
  · norm_num [settle_episode, settle_transaction, txAuth, qrBound, clHalf,
      release, resultTokenState]

/-- C6 (amended): scan-validation of a valid, unexpired, unused token never
returns a transaction: with a fresh idempotency key it raises
`AttributeError` at line 214 (before any write, so nothing is mutated
either), and with insufficient credit it fails with the insufficient-credit
error; the only successful return is the idempotency branch, which returns
the existing transaction with token and credit line unchanged. -/
theorem C6_scan_validation_amended (qr : QrCode) (cl : CreditLine) (now : ℕ)
    (hused : qr.is_used = false) (hexp : now < qr.expires_at) :
    (∀ tx0, scan_and_authorize qr (some tx0) cl now = .ok (tx0, qr, cl)) ∧
    (cl.utilized_amount + qr.authorized_amount ≤ cl.credit_limit →
      scan_and_authorize qr none cl now
        = .error "AttributeError: Driver.agency_id") ∧
    (cl.credit_limit < cl.utilized_amount + qr.authorized_amount →
      scan_and_authorize qr none cl now
        = .error "Insufficient credit limit") := by
  refine ⟨fun tx0 => ?_, fun hfit => ?_, fun hover => ?_⟩
  · simp [scan_and_authorize, hused, hexp]
  · simp [scan_and_authorize, hused, hexp, not_lt.mpr hfit]
  · simp [scan_and_authorize, hused, hexp, hover]

/-- C6 witness: the mutation-free branch — a scan whose idempotency key
already has a transaction returns it with token and line unchanged. -/
theorem C6_scan_validation_witness :
    scan_and_authorize qrDemo (some txSettled) clDemo 5
      = .ok (txSettled, qrDemo, clDemo) :=
  (C6_scan_validation_amended qrDemo clDemo 5 rfl
    (by norm_num [qrDemo])).1 txSettled

/-- C6 counterexample: for a valid, unexpired, unused token the
scan-validation does not return the bound transaction — it raises the
line-214 error. -/
theorem C6_scan_validation_counterexample :
    qrDemo.is_used = false ∧ (5 : ℕ) < qrDemo.expires_at ∧
    scan_and_authorize qrDemo none clDemo 5
      = .error "AttributeError: Driver.agency_id" := by
  refine ⟨rfl, by norm_num [qrDemo], ?_⟩
  norm_num [scan_and_authorize, qrDemo, clDemo]

/-- C7 (amended): when a transaction already exists under the idempotency
key, re-submission returns it (creating no duplicate and no additional
hold) only while the presented token is valid and unused; with a used or
expired token it fails with the invalid-QR error instead (the QR validity
filter runs before the idempotency check).  No key ever acquires a
transaction through this path in the first place: the creation path raises
`AttributeError` at line 214 before the insert, so a retry of a failed
first submission repeats that error and still creates no duplicate and no
hold. -/
theorem C7_idempotent_resubmission_amended (qr : QrCode) (cl : CreditLine)
    (now : ℕ) (tx0 : Transaction) :
    (qr.is_used = false → now < qr.expires_at →
      scan_and_authorize qr (some tx0) cl now = .ok (tx0, qr, cl)) ∧
    (qr.is_used = true ∨ qr.expires_at ≤ now →
      scan_and_authorize qr (some tx0) cl now
        = .error "Invalid or expired QR code") ∧
    (qr.is_used = false → now < qr.expires_at →
      cl.utilized_amount + qr.authorized_amount ≤ cl.credit_limit →
      scan_and_authorize qr none cl now
        = .error "AttributeError: Driver.agency_id") := by
  refine ⟨fun hused hexp => ?_, fun hv => ?_, fun hused hexp hfit => ?_⟩
  · simp [scan_and_authorize, hused, hexp]
  · rcases hv with h | h
    · simp [scan_and_authorize, h]
    · simp [scan_and_authorize, not_lt.mpr h]
  · simp [scan_and_authorize, hused, hexp, not_lt.mpr hfit]

/-- C7 witness: re-submission against a still-valid token returns the
existing transaction, leaving token and credit line unchanged. -/
theorem C7_idempotent_resubmission_witness :
    scan_and_authorize qrDemo (some txSettled) clHalf 5
      = .ok (txSettled, qrDemo, clHalf) :=
  (C7_idempotent_resubmission_amended qrDemo clHalf 5 txSettled).1 rfl
    (by norm_num [qrDemo])

/-- C7 counterexample: with a transaction existing under the key but the
token expired (time 200, expiry 100), re-submission fails with the
invalid-QR error instead of returning the existing transaction. -/
theorem C7_idempotent_resubmission_counterexample :
    qrDemo.expires_at ≤ 200 ∧
    scan_and_authorize qrDemo (some txAuth) clDemo 200
      = .error "Invalid or expired QR code" := by
  constructor
  · norm_num [qrDemo]
  · norm_num [scan_and_authorize, qrDemo]

/-- C8 (amended): a transaction with no settled amount fails with the
not-settled error, and so does one settled at exactly 0 (the guard tests
Python truthiness of `settled_amount`); for a non-zero settled amount, an
existing `ACTIVE` loan on the credit line absorbs the amount into principal
and balance, while the new-loan branch raises `AttributeError` at
`loan_service.py` line 63 (`transaction.debtor_agency_id` undeclared)
instead of creating the loan. -/
theorem C8_loan_rollup_amended (tx : Transaction) (cl : CreditLine)
    (existing : Option Loan) (now : ℕ) :
    (tx.settled_amount = none →
      create_loan_from_transaction (some tx) (some cl) existing now
        = .error "Transaction not found or not settled") ∧
    (tx.settled_amount = some 0 →
      create_loan_from_transaction (some tx) (some cl) existing now
        = .error "Transaction not found or not settled") ∧
    (∀ s, tx.settled_amount = some s → s ≠ 0 →
      (∀ loan, existing = some loan →
        create_loan_from_transaction (some tx) (some cl) existing now
          = .ok { loan with
                    principal_amount := loan.principal_amount + s,
                    outstanding_balance := loan.outstanding_balance + s }) ∧
      (existing = none →
        create_loan_from_transaction (some tx) (some cl) existing now
          = .error "AttributeError: Transaction.debtor_agency_id")) := by
  refine ⟨?_, ?_, ?_⟩
  · intro h
    simp [create_loan_from_transaction, h]
  · intro h
    simp [create_loan_from_transaction, h]
  · intro s hs hz
    refine ⟨?_, ?_⟩
    · intro loan hl
      simp [create_loan_from_transaction, hs, hz, hl]
    · intro hl
      simp [create_loan_from_transaction, hs, hz, hl]

/-- C8 witness: rolling a transaction settled at 40 into an existing
active loan extends principal and balance from 100 to 140. -/
theorem C8_loan_rollup_witness :
    create_loan_from_transaction (some txSettled) (some clHalf)
        (some loanActive) 9
      = .ok { loanActive with
                principal_amount := loanActive.principal_amount + 40,
                outstanding_balance := loanActive.outstanding_balance + 40 } :=
  ((C8_loan_rollup_amended txSettled clHalf (some loanActive) 9).2.2 40 rfl
    (by norm_num)).1 loanActive rfl

/-- C8 counterexample: a transaction settled at amount 0 is `SETTLED`, yet
the roll-up rejects it with the not-settled error because
`not transaction.settled_amount` is truthy for `0.0`. -/
theorem C8_loan_rollup_counterexample :
    zeroSettleRollup
      = some ("SETTLED", .error "Transaction not found or not settled") := by
  norm_num [zeroSettleRollup, settle_transaction, txAuth, clHalf, release,
    create_loan_from_transaction]

/-- C9 (amended): repayment fails with the exceeds-balance error exactly
when `amount > outstanding_balance`; on success it appends the repayment
row, subtracts the amount from the balance, releases the credit line by
`min(amount, utilized_amount)` (the clamped release), and on full repayment
sets `PAID_OFF` with `paid_off_at`, after which every further repayment of
a **positive** amount fails with the exceeds-balance error (a zero-amount
repayment still succeeds, which is what bars the unqualified claim). -/
theorem C9_repayment_amended (loan : Loan) (cl : CreditLine) (amount : ℚ)
    (method : String) (ref : Option String) (now : ℕ) :
    (loan.outstanding_balance < amount →
      record_repayment (some loan) (some cl) amount method ref now
        = .error "Repayment amount exceeds outstanding balance") ∧
    (amount ≤ loan.outstanding_balance →
      ∃ rep loan2 cl2,
        record_repayment (some loan) (some cl) amount method ref now
          = .ok (rep, loan2, some cl2) ∧
        rep = { loan_id := loan.id, amount := amount, payment_method := method,
                payment_reference := ref, repaid_at := now } ∧
        loan2.outstanding_balance = loan.outstanding_balance - amount ∧
        cl2 = release cl amount ∧
        (amount = loan.outstanding_balance →
          loan2.status = "PAID_OFF" ∧ loan2.paid_off_at = some now ∧
          (∀ a2 m2 r2 t2 clq2, 0 < a2 →
            record_repayment (some loan2) clq2 a2 m2 r2 t2
              = .error "Repayment amount exceeds outstanding balance"))) := by
  constructor
  · intro h
    simp only [record_repayment]
    rw [if_pos h]
  · intro h
    have hnot : ¬ (loan.outstanding_balance < amount) := not_lt.mpr h
    refine ⟨{ loan_id := loan.id, amount := amount, payment_method := method,
              payment_reference := ref, repaid_at := now },
            applyOverdue now (applyPaidOff now
              { loan with
                  outstanding_balance := loan.outstanding_balance - amount }),
            release cl amount, ?_, rfl, ?_, rfl, ?_⟩
    · simp only [record_repayment]
      rw [if_neg hnot]
      rfl
    · unfold applyOverdue applyPaidOff
      split_ifs <;> rcases loan.due_date with _ | d <;>
        simp [apply_ite Loan.outstanding_balance]
    · intro hfull
      have hz : loan.outstanding_balance - amount = 0 := by linarith
      unfold applyOverdue applyPaidOff
      simp only [hz]
      rcases hd : loan.due_date with _ | d
      · simp [hd]
        intro a2 m2 r2 t2 clq2 ha2
        simp only [record_repayment]
        rw [if_pos (by norm_num [ha2])]
      · simp [hd]
        intro a2 m2 r2 t2 clq2 ha2
        simp only [record_repayment]
        rw [if_pos (by norm_num [ha2])]

/-- C9 witness: on a 100-balance loan, repaying 150 fails; repaying the
full 100 pays the loan off and bars any further positive repayment. -/
theorem C9_repayment_witness :
    (record_repayment (some loanActive) (some clHalf) 150 "BANK_TRANSFER" none 60
       = .error "Repayment amount exceeds outstanding balance") ∧
    (∃ rep loan2 cl2,
       record_repayment (some loanActive) (some clHalf) 100 "BANK_TRANSFER" none 60
         = .ok (rep, loan2, some cl2) ∧
       rep = { loan_id := loanActive.id, amount := 100,
               payment_method := "BANK_TRANSFER", payment_reference := none,
               repaid_at := 60 } ∧
       loan2.outstanding_balance = loanActive.outstanding_balance - 100 ∧
       cl2 = release clHalf 100 ∧
       (100 = loanActive.outstanding_balance →
         loan2.status = "PAID_OFF" ∧ loan2.paid_off_at = some 60 ∧
         (∀ a2 m2 r2 t2 clq2, 0 < a2 →
           record_repayment (some loan2) clq2 a2 m2 r2 t2
             = .error "Repayment amount exceeds outstanding balance"))) :=
  ⟨(C9_repayment_amended loanActive clHalf 150 "BANK_TRANSFER" none 60).1
     (by norm_num [loanActive]),
   (C9_repayment_amended loanActive clHalf 100 "BANK_TRANSFER" none 60).2
     (by norm_num [loanActive])⟩

/-- C9 counterexample: the claim says *every* further repayment attempt on
a fully repaid loan fails; a repayment of amount 0 against a paid-off loan
succeeds (`0 < 0` is false), appending a zero repayment row. -/
theorem C9_repayment_counterexample :
    loanPaid.status = "PAID_OFF" ∧ loanPaid.outstanding_balance = 0 ∧
    record_repayment (some loanPaid) none 0 "CASH" none 60
      = .ok ({ loan_id := 51, amount := 0, payment_method := "CASH",
               payment_reference := none, repaid_at := 60 },
             { id := 51, credit_line_id := 7, driver_id := 1,
               principal_amount := 100, outstanding_balance := 0,
               interest_rate := 0, status := "PAID_OFF", due_date := some 50,
               paid_off_at := some 60 },
             none) := by
  refine ⟨rfl, rfl, ?_⟩
  norm_num [record_repayment, loanPaid, applyPaidOff, applyOverdue]

/-- C10: evaluating the availability query at the failing input — a driver
id whose `Driver` row exists — yields the line-137 error rather than an
amount (and `check_credit_availability` propagates it); only the inputs
that find no driver, or pass falsy ids, return `0.0`. -/
theorem C10_availability_crash :
    get_available_credit dbDemo (some 1) none
      = .error "AttributeError: Driver.agency_id" ∧
    check_credit_availability dbDemo (some 1) none 10
      = .error "AttributeError: Driver.agency_id" ∧
    get_available_credit dbDemo (some 2) none = .ok 0 ∧
    get_available_credit dbDemo none none = .ok 0 := by
  refine ⟨?_, ?_, ?_, ?_⟩ <;>
    norm_num [get_available_credit, check_credit_availability, findDriver,
      pyTruthy, dbDemo, List.find?]

end SmartFuel
